import Mathlib

/-!
Shallow embedding of `jupyter_kernel_executor/handlers.py`
(`ExecuteCellWebSocketHandler`) and verification of its specification.

Conventions:
* Python `None`-able strings become `Option String`; Python truthiness of a
  string value is `pytruthy` (`None` and `""` are falsy).
* The class attribute `executing_cell : Dict[str, List[Dict[str, str]]]` is the
  association list `Ledger`; dict keys are unique, lookup is first-match.
* Python dict records are the structure `Record`; Python `==`/`in`/`remove`
  compare records by value, which `DecidableEq` mirrors.
* Exceptions (`tornado.web.HTTPError`, `AssertionError`, `KeyError`, and an
  exception raised by `client.execute`) are the error type `PyErr`; a function
  that can raise returns `Except PyErr _`.
* `await` points matter only for the concurrency claim, which gets its own
  small interleaving model (`Conc`, `schedule`); everything else is modelled as
  the sequential state transformer that a single asyncio task performs.
-/

/-- One element of `result['outputs']`; `update_execute_result` reads its
`.text` attribute (handlers.py line 61). -/
structure Output where
  text : String
deriving DecidableEq

/-- A notebook cell as `write_output` / `read_code_from_ipynb` use it:
`cell['id']`, `cell['source']`, `cell['outputs']`, `cell['execution_count']`
(handlers.py lines 215-217, 229-237). -/
structure Cell where
  id : String
  source : String
  outputs : List Output
  execution_count : Option Int
deriving DecidableEq

/-- The execution result dict produced by `client.execute` /
`client.get_result`: `result['outputs']` and `result['execution_count']`. -/
structure KResult where
  outputs : List Output
  execution_count : Option Int
deriving DecidableEq

/-- A ledger record, the dict built by `get_record` (handlers.py lines
200-206). -/
structure Record where
  document_id : Option String
  cell_id : Option String
  output : String
  execution_count : Option Int
deriving DecidableEq

/-- The class attribute `executing_cell`: a dict from kernel id to the list of
records executing on that kernel (handlers.py lines 18-20). -/
abbrev Ledger := List (String × List Record)

/-- Python truthiness of an optional string: `None` and `''` are falsy. -/
def pytruthy : Option String → Bool
  | none => false
  | some s => s != ""

/-- Python truthiness of an optional integer: `None` and `0` are falsy
(`if result['execution_count']:`, handlers.py line 234). -/
def truthyInt : Option Int → Bool
  | none => false
  | some n => n != 0

/-- Dict lookup, first matching key (dict keys are unique in the source, so
first-match lookup agrees with dict semantics). -/
def lookupLedger : Ledger → String → Option (List Record)
  | [], _ => none
  | (k2, recs) :: rest, k => if k2 = k then some recs else lookupLedger rest k

/-- `self.executing_cell.get(kernel_id, [])` (handlers.py lines 69, 84, 192). -/
def recsOf (led : Ledger) (k : String) : List Record :=
  (lookupLedger led k).getD []

/-- `self.executing_cell.setdefault(kernel_id, []).append(record)`
(handlers.py lines 182-184): append to the existing list for the key, or
create the key with a one-element list. -/
def setdefaultAppend : Ledger → String → Record → Ledger
  | [], k, r => [(k, [r])]
  | (k2, recs) :: rest, k, r =>
    if k2 = k then (k2, recs ++ [r]) :: rest
    else (k2, recs) :: setdefaultAppend rest k r

/-- In-place mutation of the list stored under a key (no-op when the key is
absent, matching mutation of the fresh list that `.get(kernel_id, [])`
returns). -/
def modifyLedger : Ledger → String → (List Record → List Record) → Ledger
  | [], _, _ => []
  | (k2, recs) :: rest, k, f =>
    if k2 = k then (k2, f recs) :: rest
    else (k2, recs) :: modifyLedger rest k f

/-- `get_record` (handlers.py lines 200-206): a fresh record with empty output
and no execution count. -/
def get_record (d c : Option String) : Record :=
  ⟨d, c, "", none⟩

/-- `is_executing` (handlers.py lines 83-84): value-membership of the fresh
record in `executing_cell.get(kernel_id, [])`. -/
def is_executing (led : Ledger) (k : String) (d c : Option String) : Bool :=
  decide (get_record d c ∈ recsOf led k)

/-- Errors the handler code can raise. -/
inductive PyErr where
  /-- `tornado.web.HTTPError(code, ...)` -/
  | httpError (code : Nat)
  /-- the bare `assert code is not None` (handlers.py line 132) -/
  | assertionError
  /-- `self.executing_cell[kernel_id]` with an absent key (handlers.py line 58) -/
  | keyError
  /-- an exception raised by `client.execute` and propagated -/
  | kernelError
deriving DecidableEq

/-- The per-record mutation performed by `update_execute_result` (handlers.py
lines 58-62): records are matched by `rec['cell_id'] == cell_id` only (the
document id is not compared). -/
def updRecord (res : KResult) (c : Option String) (finished : Bool) (r : Record) : Record :=
  if r.cell_id = c then
    { r with
      execution_count := if finished then res.execution_count else none,
      output := String.join (res.outputs.map Output.text) }
  else r

/-- `update_execute_result` (handlers.py lines 57-62). Note the direct
subscript `self.executing_cell[kernel_id]`: unlike every other access in the
file it does not default to `[]`, so a missing kernel key raises `KeyError`. -/
def update_execute_result (led : Ledger) (res : KResult) (k : String)
    (c : Option String) (finished : Bool) : Except PyErr Ledger :=
  match lookupLedger led k with
  | none => Except.error PyErr.keyError
  | some _ => Except.ok (modifyLedger led k (fun recs => recs.map (updRecord res c finished)))

/-- The shared mutable state touched by `pre_execute` / `post_execute`:
the `executing_cell` ledger, plus the watcher registration.
`watcherReg : Bool` is modelled from the spec: `FileWatcher.add`
registers the handler with the ChangeWatcher and `remove` de-registers it
(the `FileWatcher` implementation is outside `handlers.py`). -/
structure ExecState where
  executing_cell : Ledger
  watcherReg : Bool
deriving DecidableEq

/-- `pre_execute` (handlers.py lines 180-188): when both `document_id` and
`cell_id` are truthy, append a fresh record under the kernel key and register
the watcher; otherwise only the (unmodelled) start timestamp is set. -/
def pre_execute (s : ExecState) (k : String) (d c : Option String) : ExecState :=
  if pytruthy d && pytruthy c then
    { executing_cell := setdefaultAppend s.executing_cell k (get_record d c),
      watcherReg := true }
  else s

/-- `post_execute` (handlers.py lines 190-198): when both ids are truthy,
de-register the watcher and remove the first record equal to the fresh
`get_record document_id cell_id` (`if record in records: records.remove(record)`),
if one is present. -/
def post_execute (s : ExecState) (k : String) (d c : Option String) : ExecState :=
  if pytruthy d && pytruthy c then
    { executing_cell := modifyLedger s.executing_cell k (fun recs => recs.erase (get_record d c)),
      watcherReg := false }
  else s

/-- One update performed on a cell found by `write_output` (handlers.py lines
230-237): replace the outputs if they differ, and unconditionally rewrite the
execution count whenever the result's count is truthy — the count is *not*
compared against the stored value. -/
def updateCellWith (res : KResult) (cell : Cell) : Cell × Bool :=
  let p1 : Cell × Bool :=
    if res.outputs ≠ cell.outputs then ({ cell with outputs := res.outputs }, true)
    else (cell, false)
  let p2 : Cell × Bool :=
    if truthyInt res.execution_count then
      ({ p1.1 with execution_count := res.execution_count }, true)
    else (p1.1, false)
  (p2.1, p1.2 || p2.2)

/-- The `for cell in nb['cells']` loop of `write_output` (handlers.py lines
229-237): update the first cell whose id matches, then `break`. -/
def writeCells (res : KResult) (cid : String) : List Cell → List Cell × Bool
  | [] => ([], false)
  | cell :: rest =>
    if cell.id = cid then
      ((updateCellWith res cell).1 :: rest, (updateCellWith res cell).2)
    else
      (cell :: (writeCells res cid rest).1, (writeCells res cid rest).2)

/-- `write_output` (handlers.py lines 220-244): early return when either id is
falsy; otherwise update the matching cell under the save lock. The returned
Bool is the `updated` flag that decides whether `cm.save` runs. -/
def write_output (d c : Option String) (nb : List Cell) (res : KResult) :
    List Cell × Bool :=
  if pytruthy d && pytruthy c then writeCells res (c.getD "") nb
  else (nb, false)

/-- `read_code_from_ipynb` (handlers.py lines 208-218): `None` when either id
is falsy; the source of the first cell whose id matches; otherwise
`HTTPError 404`. -/
def read_code_from_ipynb (d c : Option String) (nb : List Cell) :
    Except PyErr (Option String) :=
  if !(pytruthy d) || !(pytruthy c) then Except.ok none
  else
    match nb.find? (fun cell => cell.id == c.getD "") with
    | some cell => Except.ok (some cell.source)
    | none => Except.error (PyErr.httpError 404)

/-- The block-mode determination of `mimic_post` (handlers.py lines 105-113):
`if model.get('block'):` is a truthiness test, so only a truthy `block`
reaches the first branch. -/
def determineBlock (b : Option Bool) (d c : Option String) : Bool :=
  if b.getD false then true
  else if !(pytruthy d) || !(pytruthy c) then true
  else false

/-- The payload of a `post` request (handlers.py lines 87-93, 105). -/
structure PostModel where
  kernel_id : String
  path : Option String
  cell_id : Option String
  code : Option String
  not_write : Bool
  block : Option Bool
deriving DecidableEq

/-- The three response shapes `mimic_post` builds. Payload contents follow the
source exactly: the `executing` and `post` responses carry only
`{"model": model}` (handlers.py lines 98-103, 149-154) and the `post_block`
response carries an empty payload (lines 160-167, where filling it in is a
TODO in the source). -/
inductive Resp where
  | executing (m : PostModel)
  | postAck (m : PostModel)
  | postBlock
deriving DecidableEq

/-- The `output` field of the response payload, if the payload has one. No
response `mimic_post` builds contains an `output` key: the `executing` and
`post` payloads hold only the echoed request model, and the `post_block`
payload is empty. -/
def respOutput : Resp → Option String
  | Resp.executing _ => none
  | Resp.postAck _ => none
  | Resp.postBlock => none

/-- Result of one `mimic_post` call: a response, or a raised exception. -/
inductive Outcome where
  | resp (r : Resp)
  | err (e : PyErr)
deriving DecidableEq

/-- Full mutable state a `mimic_post` call touches: the shared
`executing_cell`/watcher state, the referenced notebook's cells, the number of
`cm.save` calls performed (document writes), and the number of
`client.execute` dispatches. -/
structure St where
  es : ExecState
  nb : List Cell
  saved : Nat
  dispatched : Nat
deriving DecidableEq

/-- External collaborators of one request: the kernel manager's kernel ids,
the file-id resolution of a path, the kernel execution outcome, and an
optional partial-result callback update delivered while `client.execute` is
awaited (its timing is owned by the external kernel client). -/
structure Env where
  kernels : List String
  resolve : String → Option String
  kernelOutcome : Except Unit KResult
  midUpd : Option KResult

/-- `document_id = self.index(path)` (handlers.py line 94). Modelled from the
spec: `FileIDWrapper.index` lives outside `handlers.py`; the spec states
"Resolve `documentId` from `documentPath` via IdentityResolver (no path ⇒ no
id)", so an absent path yields no id and a present path resolves through the
environment. -/
def pyIndex (env : Env) (path : Option String) : Option String :=
  match path with
  | none => none
  | some p => env.resolve p

/-- `execute` (handlers.py lines 169-178): `pre_execute`; dispatch
`client.execute` (counted); `post_execute` in a `finally`, so it runs whether
the dispatch succeeds or raises; then `update_execute_result(..., finished=True)`
on success. `midUpd` models a kernel-client callback mutating the ledger while
`client.execute` is awaited (`write_callback` swallows exceptions, hence the
error case keeps the ledger). -/
def executeH (st : St) (k : String) (d c : Option String) (midUpd : Option KResult)
    (outcome : Except Unit KResult) : Except PyErr KResult × St :=
  let es1 := pre_execute st.es k d c
  let st1 : St := { st with es := es1, dispatched := st.dispatched + 1 }
  let led1 :=
    match midUpd with
    | none => st1.es.executing_cell
    | some r =>
      match update_execute_result st1.es.executing_cell r k c false with
      | Except.ok l => l
      | Except.error _ => st1.es.executing_cell
  let es2 := post_execute { executing_cell := led1, watcherReg := st1.es.watcherReg } k d c
  let st2 : St := { st1 with es := es2 }
  match outcome with
  | Except.error _ => (Except.error PyErr.kernelError, st2)
  | Except.ok result =>
    match update_execute_result st2.es.executing_cell result k c true with
    | Except.error e => (Except.error e, st2)
    | Except.ok l2 => (Except.ok result, { st2 with es := { st2.es with executing_cell := l2 } })

/-- `mimic_post` (handlers.py lines 86-167): kernel existence check, duplicate
check, block-mode determination, code fetch with the bare assertion, then the
execute path; in sync mode `write_output` runs afterwards (unless `not_write`)
and the `post_block` response is returned, in async mode the `post`
acknowledgement is returned (the deferred `write_callback` write-back happens
at a time owned by the external kernel client and is not part of this call's
effects). -/
def mimic_post (env : Env) (st : St) (m : PostModel) : Outcome × St :=
  if env.kernels.contains m.kernel_id then
    let document_id := pyIndex env m.path
    if is_executing st.es.executing_cell m.kernel_id document_id m.cell_id then
      (Outcome.resp (Resp.executing m), st)
    else
      let block := determineBlock m.block document_id m.cell_id
      match (if pytruthy m.code then Except.ok m.code
             else read_code_from_ipynb document_id m.cell_id st.nb) with
      | Except.error e => (Outcome.err e, st)
      | Except.ok none => (Outcome.err PyErr.assertionError, st)
      | Except.ok (some _) =>
        let midUpd := if !block && !m.not_write then env.midUpd else none
        match executeH st m.kernel_id document_id m.cell_id midUpd env.kernelOutcome with
        | (Except.error e, st2) => (Outcome.err e, st2)
        | (Except.ok result, st2) =>
          if block then
            if m.not_write then (Outcome.resp Resp.postBlock, st2)
            else
              let w := write_output document_id m.cell_id st2.nb result
              (Outcome.resp Resp.postBlock,
               { st2 with nb := w.1, saved := st2.saved + (if w.2 then 1 else 0) })
          else (Outcome.resp (Resp.postAck m), st2)
  else (Outcome.err (PyErr.httpError 404), st)

/-!
### Interleaving model for the dedup check vs. registration (claim C4)

Two concurrent `post` requests for the same `(kernel_id, document_id,
cell_id)` key are each a list of atomic *segments*. Within one asyncio task,
code between genuine suspension points runs without interleaving; a segment
boundary therefore exists exactly at an `await` that can suspend. For the
dedup property only two primitive actions matter: the duplicate check
(`is_executing`, handlers.py line 95) and the registration (`pre_execute`'s
append, line 182).

* A request that must fetch its code from the document suspends at the
  `await self.read_code_from_ipynb(...)` of line 128, *between* the check and
  the registration: its segments are `[[check], [register]]` (`fetchProc`).
* A request with inline code takes the `or` short-circuit at line 128 and
  reaches the append without any suspension after the check: its segments are
  `[[check, register]]` (`inlineProc`).
-/

/-- The two primitive actions relevant to deduplication. -/
inductive Act where
  | check
  | register
deriving DecidableEq

/-- Joint state of two concurrent same-key requests: the shared
ledger/watcher state, each request's recorded result of its duplicate check
(`none` = not yet performed, `some true` = passed, `some false` = found a
duplicate and returned early), and each request's remaining segments. -/
structure Conc where
  es : ExecState
  pa : Option Bool
  pb : Option Bool
  qa : List (List Act)
  qb : List (List Act)
deriving DecidableEq

/-- One primitive action by request A (`isA = true`) or B. A request whose
check found a duplicate returns the `executing` response and never reaches
its registration. -/
def runAct (k : String) (d c : Option String) (isA : Bool) (s : Conc) :
    Act → Conc
  | Act.check =>
    let r := some (!(is_executing s.es.executing_cell k d c))
    if isA then { s with pa := r } else { s with pb := r }
  | Act.register =>
    if (if isA then s.pa else s.pb) = some true then
      { s with es := pre_execute s.es k d c }
    else s

/-- Run one atomic segment to completion (no interleaving inside it). -/
def runSeg (k : String) (d c : Option String) (isA : Bool) (s : Conc)
    (seg : List Act) : Conc :=
  seg.foldl (runAct k d c isA) s

/-- One scheduler step: run the next segment of the chosen request (no-op if
that request is finished). -/
def stepC (k : String) (d c : Option String) (s : Conc) (who : Bool) : Conc :=
  if who then
    match s.qa with
    | [] => s
    | seg :: q => { runSeg k d c true s seg with qa := q }
  else
    match s.qb with
    | [] => s
    | seg :: q => { runSeg k d c false s seg with qb := q }

/-- Run a whole interleaving, given as the list of scheduling choices. -/
def schedule (k : String) (d c : Option String) (s : Conc) : List Bool → Conc
  | [] => s
  | w :: rest => schedule k d c (stepC k d c s w) rest

/-- Both requests passed the duplicate check. -/
def bothPassed (s : Conc) : Bool :=
  (s.pa == some true) && (s.pb == some true)

/-- Segments of a request that fetches its code from the document: the
`await` of handlers.py line 128 separates the check from the registration. -/
def fetchProc : List (List Act) := [[Act.check], [Act.register]]

/-- Segments of a request with inline code: no suspension between the check
and the registration. -/
def inlineProc : List (List Act) := [[Act.check, Act.register]]

/-- Initial joint state: empty ledger, neither request has run. -/
def concInit (p : List (List Act)) : Conc :=
  ⟨⟨[], false⟩, none, none, p, p⟩

/-- The concrete key used by the concurrency theorems. -/
def cKey : String := "k"

/-- Concrete document id for the concurrency theorems. -/
def cDoc : Option String := some "d"

/-- Concrete cell id for the concurrency theorems. -/
def cCell : Option String := some "c"

/-- Reachable joint states of two inline-code requests (used as an inductive
invariant): initial; A done; B done; A then B; B then A. -/
def inlineReach : List Conc :=
  [ concInit inlineProc,
    ⟨⟨[(cKey, [get_record cDoc cCell])], true⟩, some true, none, [], [[Act.check, Act.register]]⟩,
    ⟨⟨[(cKey, [get_record cDoc cCell])], true⟩, none, some true, [[Act.check, Act.register]], []⟩,
    ⟨⟨[(cKey, [get_record cDoc cCell])], true⟩, some true, some false, [], []⟩,
    ⟨⟨[(cKey, [get_record cDoc cCell])], true⟩, some false, some true, [], []⟩ ]

/-- Membership in the inline-code invariant set, as a decidable Bool. -/
def invInline (s : Conc) : Bool := inlineReach.contains s

/-! ### Concrete instances used by closed theorems and witnesses -/

/-- An empty handler state: `executing_cell = {}`, watcher not registered, no
document content, nothing saved or dispatched — the state of a fresh server. -/
def stEmpty : St := ⟨⟨[], false⟩, [], 0, 0⟩

/-- A concrete kernel result: one output with text `"2"`, execution count 1. -/
def resOne : KResult := ⟨[⟨"2"⟩], some 1⟩

/-- Environment with kernel `k1` and no path resolution. -/
def envC3 : Env := ⟨["k1"], fun _ => none, Except.ok resOne, none⟩

/-- A `post` request with inline code and `block=true` but no path/cell. -/
def mC3 : PostModel := ⟨"k1", none, none, some "1+1", false, some true⟩

/-- Environment with kernel `k1` where every path resolves to document `d`. -/
def envC7 : Env := ⟨["k1"], fun _ => some "d", Except.ok resOne, none⟩

/-- State whose ledger holds the in-flight record for `(k1, d, c)`. -/
def stC7 : St := ⟨⟨[("k1", [get_record (some "d") (some "c")])], false⟩, [], 0, 0⟩

/-- A `post` request for the already-executing `(k1, d, c)`. -/
def mC7 : PostModel := ⟨"k1", some "p", some "c", some "x", false, none⟩

/-- State whose document has a single cell with id `other`. -/
def stC9 : St := ⟨⟨[], false⟩, [⟨"other", "1+1", [], none⟩], 0, 0⟩

/-- A `post` request without inline code for the absent cell `c9`. -/
def mC9 : PostModel := ⟨"k1", some "p", some "c9", none, false, none⟩

/-- A `post` request without inline code, without a path. -/
def mC10 : PostModel := ⟨"k1", none, some "c", none, false, none⟩

/-- Notebook with one fresh cell `c1` for the idempotence analysis. -/
def nbC2 : List Cell := [⟨"c1", "1+1", [], none⟩]

/-! ### Ledger lemmas -/

theorem updRecord_skip (res : KResult) (c : Option String) (finished : Bool)
    (r : Record) (h : ¬ r.cell_id = c) : updRecord res c finished r = r := by
  simp [updRecord, h]

theorem mapIdOn (l : List Record) (f : Record → Record)
    (h : ∀ x ∈ l, f x = x) : l.map f = l := by
  induction l with
  | nil => rfl
  | cons a as ih =>
    simp only [List.map_cons]
    rw [h a (List.mem_cons_self a as), ih (fun x hx => h x (List.mem_cons_of_mem a hx))]

theorem modify_map_id (led : Ledger) (k : String) (f : List Record → List Record)
    (recs : List Record) (hl : lookupLedger led k = some recs) (hf : f recs = recs) :
    modifyLedger led k f = led := by
  induction led with
  | nil => simp [lookupLedger] at hl
  | cons e rest ih =>
    obtain ⟨k2, rs⟩ := e
    by_cases h : k2 = k
    · subst h
      have hrs : rs = recs := by simpa [lookupLedger] using hl
      subst hrs
      simp [modifyLedger, hf]
    · simp only [lookupLedger, if_neg h] at hl
      simp [modifyLedger, h, ih hl]

theorem lookup_setdefaultAppend (led : Ledger) (k : String) (r : Record) :
    lookupLedger (setdefaultAppend led k r) k = some (recsOf led k ++ [r]) := by
  induction led with
  | nil => simp [setdefaultAppend, lookupLedger, recsOf]
  | cons e rest ih =>
    obtain ⟨k2, recs⟩ := e
    by_cases h : k2 = k
    · subst h
      simp [setdefaultAppend, lookupLedger, recsOf]
    · simp [setdefaultAppend, lookupLedger, recsOf, h, ih]

theorem lookup_modifyLedger (led : Ledger) (k : String) (f : List Record → List Record) :
    lookupLedger (modifyLedger led k f) k = (lookupLedger led k).map f := by
  induction led with
  | nil => simp [modifyLedger, lookupLedger]
  | cons e rest ih =>
    obtain ⟨k2, recs⟩ := e
    by_cases h : k2 = k
    · subst h
      simp [modifyLedger, lookupLedger]
    · simp [modifyLedger, lookupLedger, h, ih]

theorem erase_append_single (l : List Record) (x : Record) (h : x ∉ l) :
    (l ++ [x]).erase x = l := by
  induction l with
  | nil => simp
  | cons a as ih =>
    have hax : ¬ (a = x) := fun e => h (e ▸ List.mem_cons_self a as)
    have has : x ∉ as := fun hm => h (List.mem_cons_of_mem a hm)
    simp only [List.cons_append, List.erase_cons]
    rw [if_neg (by simpa using hax), ih has]

/-! ### Claim theorems -/

/-- C5 counterexample: the claim says an explicitly supplied `block` flag wins
whether true or false; but `if model.get('block'):` is a truthiness test, so
an explicit `block=false` with a missing document id is forced to `true`
instead of winning as `false`. -/
theorem C5_counterexample : determineBlock (some false) none (some "c") = true := by
  decide

/-- C5 (amended): a truthy `block` wins; an explicit `block=false` behaves
exactly like an absent flag, so `block` is true iff the request's flag is
truthy, or the document id or cell id is missing. -/
theorem C5_amended_theorem (b : Option Bool) (d c : Option String) :
    determineBlock b d c = (b.getD false || (!(pytruthy d) || !(pytruthy c))) := by
  unfold determineBlock
  cases hb : b.getD false <;>
    cases hd : pytruthy d <;>
      cases hc : pytruthy c <;> simp [hb, hd, hc]

/-- C6 counterexample: the claim says `update` never throws, even when the
ledger has no entry at all for the kernel id; but `update_execute_result`
subscripts `executing_cell[kernel_id]` directly and raises `KeyError` on the
empty ledger. -/
theorem C6_counterexample :
    update_execute_result [] resOne "k" (some "c") false = Except.error PyErr.keyError := rfl

/-- C6 (amended): when the ledger has an entry for the kernel id (possibly an
empty or non-matching list), `update_execute_result` with no matching record
is a no-op; when the ledger has no entry for the kernel id it raises
`KeyError`. -/
theorem C6_amended_theorem (led : Ledger) (res : KResult) (k : String)
    (c : Option String) (finished : Bool) :
    (lookupLedger led k = none →
      update_execute_result led res k c finished = Except.error PyErr.keyError)
    ∧ (∀ recs, lookupLedger led k = some recs → (∀ r ∈ recs, ¬ r.cell_id = c) →
        update_execute_result led res k c finished = Except.ok led) := by
  constructor
  · intro h
    simp [update_execute_result, h]
  · intro recs hl hnone
    have hmap : recs.map (updRecord res c finished) = recs :=
      mapIdOn _ _ (fun x hx => updRecord_skip _ _ _ _ (hnone x hx))
    simp only [update_execute_result, hl, Except.ok.injEq]
    exact modify_map_id led k _ recs hl hmap

/-- C6 witness: both branches of the amended statement at concrete inputs. -/
theorem C6_witness :
    update_execute_result [] resOne "k" (some "c") false = Except.error PyErr.keyError
    ∧ update_execute_result [("k", [])] resOne "k" (some "c") false = Except.ok [("k", [])] :=
  ⟨(C6_amended_theorem [] resOne "k" (some "c") false).1 rfl,
   (C6_amended_theorem [("k", [])] resOne "k" (some "c") false).2 [] rfl
     (fun r hr => absurd hr (List.not_mem_nil r))⟩

/-- C1: the ledger invariant fails on the code. Two executions on kernel `k`
for documents `A` and `B` that share a cell id `c`: `B` is accepted by the
dedup check, and when `B` finishes, line 177's `update_execute_result`
(matching by cell id only) mutates `A`'s still-executing record. `post_execute`
then removes records by comparing against the *fresh* `get_record` value, so
when `A` finishes its mutated record is not equal to the fresh record and is
never removed (a leak, despite the source's `# prevent memory leak` comment);
`is_executing` is false although the record persists, and a later accepted
request for `(k, A, c)` creates a second record for the same triple. -/
theorem C1_record_leak :
    -- the second request (document B, same cell id) passes the dedup check
    (is_executing [("k", [get_record (some "A") (some "c")])] "k" (some "B") (some "c") = false)
    -- both executions registered
    ∧ (pre_execute (pre_execute ⟨[], false⟩ "k" (some "A") (some "c")) "k" (some "B") (some "c")
        = ⟨[("k", [get_record (some "A") (some "c"), get_record (some "B") (some "c")])], true⟩)
    -- B finishes: its fresh record is removed ...
    ∧ (post_execute ⟨[("k", [get_record (some "A") (some "c"), get_record (some "B") (some "c")])], true⟩
        "k" (some "B") (some "c")
        = ⟨[("k", [get_record (some "A") (some "c")])], false⟩)
    -- ... and line 177's finished-update mutates A's in-flight record
    ∧ (update_execute_result [("k", [get_record (some "A") (some "c")])]
        ⟨[⟨"x"⟩], some 1⟩ "k" (some "c") true
        = Except.ok [("k", [⟨some "A", some "c", "x", some 1⟩])])
    -- A finishes: removal silently fails, the record stays in the ledger
    ∧ (post_execute ⟨[("k", [⟨some "A", some "c", "x", some 1⟩])], true⟩ "k" (some "A") (some "c")
        = ⟨[("k", [⟨some "A", some "c", "x", some 1⟩])], false⟩)
    -- the iff-invariant is broken: record present, yet is_executing is false
    ∧ (is_executing [("k", [⟨some "A", some "c", "x", some 1⟩])] "k" (some "A") (some "c") = false)
    -- and a later accepted request yields two records for the triple (k, A, c)
    ∧ (recsOf (pre_execute ⟨[("k", [⟨some "A", some "c", "x", some 1⟩])], false⟩
        "k" (some "A") (some "c")).executing_cell "k"
        = [⟨some "A", some "c", "x", some 1⟩, get_record (some "A") (some "c")]) := by
  refine ⟨by decide, rfl, rfl, rfl, rfl, by decide, rfl⟩

/-- C3: the synchronous no-document scenario crashes instead of returning the
result. On a fresh ledger, a `block=true` request with inline code and no
path/cell reaches line 177's `update_execute_result`, whose direct subscript
`executing_cell[kernel_id]` raises `KeyError` before any response is built
(and the `post_block` response that would have been returned carries an empty
payload anyway — filling it is a TODO in the source). -/
theorem C3_sync_keyerror :
    mimic_post envC3 stEmpty mC3 = (Outcome.err PyErr.keyError, ⟨⟨[], false⟩, [], 0, 1⟩) := rfl

/-- C7 (amended): whenever `is_executing` holds, `mimic_post` returns the
`executing` status echoing only the request model, dispatches nothing and
leaves the whole state (ledger, document, save and dispatch counters)
unchanged; the response carries no record data (returning the most recent
output is a TODO in the source). -/
theorem C7_amended_theorem (env : Env) (st : St) (m : PostModel)
    (hk : env.kernels.contains m.kernel_id = true)
    (hex : is_executing st.es.executing_cell m.kernel_id (pyIndex env m.path) m.cell_id = true) :
    mimic_post env st m = (Outcome.resp (Resp.executing m), st)
    ∧ respOutput (Resp.executing m) = none := by
  have hmem : m.kernel_id ∈ env.kernels := by simpa using hk
  constructor
  · simp [mimic_post, hmem, hex]
  · rfl

/-- C7 witness: the amended statement at a concrete duplicate request. -/
theorem C7_witness :
    mimic_post envC7 stC7 mC7 = (Outcome.resp (Resp.executing mC7), stC7)
    ∧ respOutput (Resp.executing mC7) = none :=
  C7_amended_theorem envC7 stC7 mC7 rfl (by decide)

/-- C7 counterexample: the claim says the `AlreadyExecuting` response carries
the current ledger record's accumulated output and execution count. At a
concrete duplicate request the record in the ledger has output `""`, so a
response carrying it would have an `output` field equal to `some ""`; the
actual response is `executing` with payload `{"model": model}`, which has no
output field at all. -/
theorem C7_counterexample :
    (mimic_post envC7 stC7 mC7).1 = Outcome.resp (Resp.executing mC7)
    ∧ ¬ respOutput (Resp.executing mC7) = some "" := by
  exact ⟨rfl, by simp [respOutput]⟩

/-- C9: a request with no inline code whose cell id is absent from the
referenced document fails synchronously with `HTTPError 404`
(`read_code_from_ipynb`, handlers.py line 218), leaving the state untouched. -/
theorem C9_theorem (env : Env) (st : St) (m : PostModel)
    (hk : env.kernels.contains m.kernel_id = true)
    (hnex : is_executing st.es.executing_cell m.kernel_id (pyIndex env m.path) m.cell_id = false)
    (hcode : pytruthy m.code = false)
    (hd : pytruthy (pyIndex env m.path) = true)
    (hc : pytruthy m.cell_id = true)
    (habs : ∀ cell ∈ st.nb, ¬ cell.id = m.cell_id.getD "") :
    mimic_post env st m = (Outcome.err (PyErr.httpError 404), st) := by
  have hmem : m.kernel_id ∈ env.kernels := by simpa using hk
  have hfind : st.nb.find? (fun cell => cell.id == m.cell_id.getD "") = none := by
    rw [List.find?_eq_none]
    intro x hx
    simpa using habs x hx
  simp [mimic_post, hmem, hnex, hcode, read_code_from_ipynb, hd, hc, hfind]

/-- C9 witness: cell `c9` is absent from a document holding only `other`. -/
theorem C9_witness :
    mimic_post envC7 stC9 mC9 = (Outcome.err (PyErr.httpError 404), stC9) :=
  C9_theorem envC7 stC9 mC9 rfl rfl rfl rfl rfl (by decide)

/-- C10: a request with no (or empty-string) inline code for which the
document id or the cell id is unavailable makes `read_code_from_ipynb` return
`None`, and `mimic_post` then fails the bare `assert code is not None` with an
`AssertionError` — not with a typed `NotFound` error. -/
theorem C10_theorem (env : Env) (st : St) (m : PostModel)
    (hk : env.kernels.contains m.kernel_id = true)
    (hnex : is_executing st.es.executing_cell m.kernel_id (pyIndex env m.path) m.cell_id = false)
    (hcode : pytruthy m.code = false)
    (hmiss : pytruthy (pyIndex env m.path) = false ∨ pytruthy m.cell_id = false) :
    mimic_post env st m = (Outcome.err PyErr.assertionError, st) := by
  have hmem : m.kernel_id ∈ env.kernels := by simpa using hk
  have hguard : (!(pytruthy (pyIndex env m.path)) || !(pytruthy m.cell_id)) = true := by
    rcases hmiss with h | h <;> simp [h]
  simp [mimic_post, hmem, hnex, hcode, read_code_from_ipynb, hguard]

/-- C10 witness: no inline code and no path on a fresh state. -/
theorem C10_witness :
    mimic_post envC3 stEmpty mC10 = (Outcome.err PyErr.assertionError, stEmpty) :=
  C10_theorem envC3 stEmpty mC10 rfl rfl rfl (Or.inl rfl)

/-! ### write_output idempotence analysis (claim C2) -/

theorem updateCellWith_id (res : KResult) (cell : Cell) :
    ((updateCellWith res cell).1).id = cell.id := by
  unfold updateCellWith
  dsimp only
  split <;> split <;> rfl

theorem updateCellWith_outputs (res : KResult) (cell : Cell) :
    ((updateCellWith res cell).1).outputs = res.outputs := by
  unfold updateCellWith
  dsimp only
  by_cases h : res.outputs ≠ cell.outputs
  · rw [if_pos h]
    split <;> rfl
  · rw [if_neg h]
    have he : res.outputs = cell.outputs := not_ne_iff.mp h
    split <;> simp [he]

theorem updateCellWith_count (res : KResult) (cell : Cell)
    (h : truthyInt res.execution_count = true) :
    ((updateCellWith res cell).1).execution_count = res.execution_count := by
  unfold updateCellWith
  dsimp only
  simp only [h, if_true]

/-- Re-applying `updateCellWith` to an already-updated cell leaves it
unchanged, and the `updated` flag is exactly the truthiness of the result's
execution count (handlers.py line 234 sets `updated = True` without comparing
the count). -/
theorem updateCellWith_stable (res : KResult) (cell2 : Cell)
    (ho : cell2.outputs = res.outputs)
    (hc : truthyInt res.execution_count = true → cell2.execution_count = res.execution_count) :
    updateCellWith res cell2 = (cell2, truthyInt res.execution_count) := by
  have hne : ¬ (res.outputs ≠ cell2.outputs) := by simp [ho]
  cases ht : truthyInt res.execution_count with
  | false =>
    unfold updateCellWith
    dsimp only
    rw [if_neg hne, ht]
    simp
  | true =>
    have hce := hc ht
    unfold updateCellWith
    dsimp only
    rw [if_neg hne, ht]
    simp only [if_true]
    cases cell2 with
    | mk i s o e =>
      simp at hce
      simp [hce]

theorem writeCells_twice (res : KResult) (cid : String) (nb : List Cell) :
    writeCells res cid (writeCells res cid nb).1
      = ((writeCells res cid nb).1,
         ((writeCells res cid nb).1.any (fun cell => cell.id == cid))
           && truthyInt res.execution_count) := by
  induction nb with
  | nil => simp [writeCells]
  | cons cell rest ih =>
    by_cases h : cell.id = cid
    · have hid : ((updateCellWith res cell).1).id = cid := by
        rw [updateCellWith_id]; exact h
      have hstable : updateCellWith res (updateCellWith res cell).1
          = ((updateCellWith res cell).1, truthyInt res.execution_count) :=
        updateCellWith_stable res _ (updateCellWith_outputs res cell)
          (fun ht => updateCellWith_count res cell ht)
      simp [writeCells, h, hid, hstable]
    · have hb : (cell.id == cid) = false := by simp [h]
      simp [writeCells, h, hb, ih]

/-- C2 counterexample: the claim says the second application of the same
result reports `changed = false`; with a truthy execution count (here 1) the
second `write_output` still reports `updated = true`, because the count is
rewritten unconditionally whenever truthy. -/
theorem C2_counterexample :
    (write_output (some "d") (some "c1")
      (write_output (some "d") (some "c1") nbC2 resOne).1 resOne).2 = true := by
  decide

/-- C2 (amended): applying the same result twice changes the document's value
at most once — the second application leaves the cells unchanged — but it
reports `changed = true` (and so performs a redundant write-back) exactly when
both ids are truthy, the cell is present, and the result's execution count is
truthy; only the outputs are compared against the stored value, never the
count. -/
theorem C2_amended_theorem (d c : Option String) (nb : List Cell) (res : KResult) :
    write_output d c (write_output d c nb res).1 res
      = ((write_output d c nb res).1,
         pytruthy d && pytruthy c
           && ((write_output d c nb res).1.any (fun cell => cell.id == c.getD ""))
           && truthyInt res.execution_count) := by
  unfold write_output
  cases hd : pytruthy d with
  | false => simp
  | true =>
    cases hc : pytruthy c with
    | false => simp
    | true =>
      simp only [Bool.and_self, Bool.true_and, if_true]
      rw [writeCells_twice res (c.getD "") nb]

/-! ### Concurrency theorems (claim C4) -/

/-- C4 counterexample: with two concurrent same-key requests that both fetch
their code from the document (so each suspends at handlers.py line 128 between
the duplicate check and the registration), the interleaving
A-check, B-check, A-register, B-register lets both requests pass the check and
register, producing two records for one (kernel, document, cell) triple —
the claim says no interleaving allows this. -/
theorem C4_counterexample :
    bothPassed (schedule cKey cDoc cCell (concInit fetchProc) [true, false, true, false]) = true
    ∧ recsOf (schedule cKey cDoc cCell (concInit fetchProc)
        [true, false, true, false]).es.executing_cell cKey
      = [get_record cDoc cCell, get_record cDoc cCell] := by
  constructor <;> decide

theorem C4_inv_step (s : Conc) (hs : invInline s = true) (w : Bool) :
    invInline (stepC cKey cDoc cCell s w) = true := by
  have hmem : s ∈ inlineReach := by simpa [invInline] using hs
  simp [inlineReach] at hmem
  rcases hmem with h | h | h | h | h <;> subst h <;> cases w <;> decide

theorem C4_sched_inv (sch : List Bool) :
    ∀ s : Conc, invInline s = true →
      invInline (schedule cKey cDoc cCell s sch) = true := by
  induction sch with
  | nil => intro s hs; simpa [schedule] using hs
  | cons w rest ih =>
    intro s hs
    simp only [schedule]
    exact ih _ (C4_inv_step s hs w)

/-- C4 (amended): for two concurrent same-key requests with inline code the
check and the registration sit inside one atomic segment (no suspension point
separates handlers.py line 95 from line 182), and then no interleaving lets
both requests pass the duplicate check; when the code must be fetched from
the document, the `await` of line 128 splits the segment and the property
fails (see the counterexample). -/
theorem C4_amended_theorem (sch : List Bool) :
    bothPassed (schedule cKey cDoc cCell (concInit inlineProc) sch) = false := by
  have h := C4_sched_inv sch (concInit inlineProc) (by decide)
  have hmem : schedule cKey cDoc cCell (concInit inlineProc) sch ∈ inlineReach := by
    simpa [invInline] using h
  simp [inlineReach] at hmem
  rcases hmem with h2 | h2 | h2 | h2 | h2 <;> rw [h2] <;> decide

/-! ### Cleanup theorems (claim C8) -/

/-- C8 counterexample: an exit path on which the record is not removed. The
kernel-client callback records a partial output `"x"` into the ledger record
while `client.execute` is in flight; the dispatch then raises. The `finally`
block does run `post_execute`, but removal compares against the fresh
`get_record` value, which no longer equals the mutated record, so the record
survives the exit — the claim says removal happens on every exit path. -/
theorem C8_counterexample :
    (executeH stEmpty "k" (some "d") (some "c") (some ⟨[⟨"x"⟩], none⟩)
        (Except.error ())).1 = Except.error PyErr.kernelError
    ∧ (⟨some "d", some "c", "x", none⟩ : Record) ∈
        recsOf (executeH stEmpty "k" (some "d") (some "c") (some ⟨[⟨"x"⟩], none⟩)
          (Except.error ())).2.es.executing_cell "k" := by
  exact ⟨rfl, by decide⟩

/-- C8 (amended): `post_execute` is invoked on every exit path of `execute`
(success and kernel exception alike, via `try/finally`), the watcher
registration is always released, and the ledger record is actually removed
provided it was not mutated while in flight (no record for that cell id
pre-existed and no partial update landed); a record that received partial
updates is not removed (see the counterexample). -/
theorem C8_amended_theorem (st : St) (k : String) (d c : Option String)
    (outcome : Except Unit KResult)
    (hd : pytruthy d = true) (hc : pytruthy c = true)
    (hclean : ∀ r ∈ recsOf st.es.executing_cell k, ¬ r.cell_id = c) :
    recsOf (executeH st k d c none outcome).2.es.executing_cell k
      = recsOf st.es.executing_cell k
    ∧ (executeH st k d c none outcome).2.es.watcherReg = false
    ∧ is_executing (executeH st k d c none outcome).2.es.executing_cell k d c = false := by
  have hfr : get_record d c ∉ recsOf st.es.executing_cell k :=
    fun hm => (hclean _ hm) rfl
  have h1 := lookup_setdefaultAppend st.es.executing_cell k (get_record d c)
  have h2 : lookupLedger (modifyLedger (setdefaultAppend st.es.executing_cell k (get_record d c)) k
      (fun recs => recs.erase (get_record d c))) k = some (recsOf st.es.executing_cell k) := by
    rw [lookup_modifyLedger, h1]
    simp [erase_append_single _ _ hfr]
  have h3 : ∀ res : KResult, (recsOf st.es.executing_cell k).map (updRecord res c true)
      = recsOf st.es.executing_cell k :=
    fun res => mapIdOn _ _ (fun x hx => updRecord_skip _ _ _ _ (hclean x hx))
  have hpre : pre_execute st.es k d c
      = ⟨setdefaultAppend st.es.executing_cell k (get_record d c), true⟩ := by
    simp [pre_execute, hd, hc]
  have hpost : post_execute ⟨setdefaultAppend st.es.executing_cell k (get_record d c), true⟩ k d c
      = ⟨modifyLedger (setdefaultAppend st.es.executing_cell k (get_record d c)) k
          (fun recs => recs.erase (get_record d c)), false⟩ := by
    simp [post_execute, hd, hc]
  have hrecs : ∀ led2 : Ledger, lookupLedger led2 k = some (recsOf st.es.executing_cell k) →
      recsOf led2 k = recsOf st.es.executing_cell k := by
    intro led2 hl
    unfold recsOf
    rw [hl]
    rfl
  have hie : ∀ led2 : Ledger, lookupLedger led2 k = some (recsOf st.es.executing_cell k) →
      is_executing led2 k d c = false := by
    intro led2 hl
    unfold is_executing
    rw [hrecs led2 hl]
    exact decide_eq_false hfr
  cases outcome with
  | error e =>
    refine ⟨?_, ?_, ?_⟩ <;>
      simp only [executeH, hpre, hpost] <;>
        first
          | rfl
          | exact hrecs _ h2
          | exact hie _ h2
  | ok res =>
    have h4 : lookupLedger (modifyLedger (modifyLedger (setdefaultAppend st.es.executing_cell k
        (get_record d c)) k (fun recs => recs.erase (get_record d c))) k
        (fun recs => recs.map (updRecord res c true))) k
        = some (recsOf st.es.executing_cell k) := by
      rw [lookup_modifyLedger, h2]
      simp [h3 res]
    refine ⟨?_, ?_, ?_⟩ <;>
      simp only [executeH, hpre, hpost, update_execute_result, h2] <;>
        first
          | rfl
          | exact hrecs _ h4
          | exact hie _ h4

/-- C8 witness: the amended statement on the kernel-exception exit path from
an empty ledger. -/
theorem C8_witness :
    recsOf (executeH stEmpty "k" (some "d") (some "c") none
        (Except.error ())).2.es.executing_cell "k"
      = recsOf stEmpty.es.executing_cell "k"
    ∧ (executeH stEmpty "k" (some "d") (some "c") none (Except.error ())).2.es.watcherReg = false
    ∧ is_executing (executeH stEmpty "k" (some "d") (some "c") none
        (Except.error ())).2.es.executing_cell "k" (some "d") (some "c") = false :=
  C8_amended_theorem stEmpty "k" (some "d") (some "c") (Except.error ()) rfl rfl
    (fun r hr => absurd hr (List.not_mem_nil r))
